import Mathlib

/-!
# Verification of the GAIA v6.7 scoring engine (`src/gaia_v67.py`, `src/gaia_api.py`)

Shallow embedding of the scoring engine. Numeric values are embedded as
rationals (`ℚ`); the wall-clock quantities that the Python code reads from
`time.time()` (the elapsed time used by the recovery term, and the measured
latency) and the random draw `random.uniform(-0.1, 0.1)` are passed as
explicit parameters, so each embedded operation is a pure function of the
state, the input event and those environment values.
-/

namespace GaiaV67

/-- `Config.__init__` in `src/gaia_v67.py` (lines 15-24): every constructed
configuration carries exactly these values; the constructor takes no
arguments. -/
structure Config where
  max_consciousness : ℚ
  min_consciousness : ℚ
  threat_threshold : ℚ
  latency_target_ms : ℚ
  max_threats_history : ℕ
  max_latencies_history : ℕ
deriving Repr, DecidableEq

/-- The (only) configuration the Python constructor `Config()` produces. -/
def Config.default : Config :=
  { max_consciousness := 1
    min_consciousness := 0
    threat_threshold := 8/10
    latency_target_ms := 100
    max_threats_history := 1000
    max_latencies_history := 1000 }

/-- Mutable engine state of class `GAIA` (lines 30-36); `_last_event_time`
is replaced by passing the elapsed time `dt` into `process_event`. -/
structure GAIA where
  config : Config
  cycle_count : ℕ
  consciousness : ℚ
  threats : List ℚ
  latencies : List ℚ
deriving Repr, DecidableEq

/-- `GAIA.__init__(config)` (lines 30-36): cycle 0, consciousness 0.5,
empty histories. -/
def GAIA.init (config : Config) : GAIA :=
  { config := config
    cycle_count := 0
    consciousness := 1/2
    threats := []
    latencies := [] }

/-- An inbound event dict `{cpu?, memory?, network?}`; a `none` field is a
key absent from the Python dict. -/
structure Event where
  cpu : Option ℚ
  memory : Option ℚ
  network : Option ℚ
deriving Repr, DecidableEq

/-- `GAIA._calculate_threat_level` (lines 81-94). The call
`random.uniform(-0.1, 0.1)` is modelled by the explicit parameter `noise`. -/
def calculate_threat_level (cpu memory network noise : ℚ) : ℚ :=
  let base_threat := (cpu + memory + network) / 3
  let threat := max 0 (min 1 (base_threat + noise))
  if 9/10 < cpu ∨ 9/10 < memory then min 1 (threat * (3/2)) else threat

/-- `GAIA._update_consciousness` (lines 96-110). The elapsed wall-clock
time `time.time() - self._last_event_time` is the explicit parameter `dt`. -/
def update_consciousness (config : Config) (consciousness threat_level dt : ℚ) : ℚ :=
  let threat_impact := -(1/10) * threat_level
  let recovery := min (1/20) (dt * (1/100))
  let new_consciousness := consciousness + threat_impact + recovery
  max config.min_consciousness (min config.max_consciousness new_consciousness)

/-- Python list slice `xs[-cap:]`: for `cap = 0` the slice `xs[-0:]` is
`xs[0:]`, the whole list; otherwise the last `cap` elements. -/
def pySliceLast (cap : ℕ) (xs : List ℚ) : List ℚ :=
  if cap = 0 then xs else xs.drop (xs.length - cap)

/-- The append-then-trim discipline of `process_event` (lines 49-53 for
threats, 61-65 for latencies): append, then if the length exceeds the
capacity keep only the slice `xs[-cap:]`. -/
def appendBounded (cap : ℕ) (xs : List ℚ) (x : ℚ) : List ℚ :=
  let t := xs ++ [x]
  if cap < t.length then pySliceLast cap t else t

/-- The keys of the dict returned by `process_event` (lines 72-79). -/
def process_event_result_keys : List String :=
  ["status", "cycle", "consciousness", "threat_level", "latency_ms", "timestamp"]

/-- The method names defined on class `GAIA` (lines 27-123). -/
def GAIA.method_names : List String :=
  ["__init__", "process_event", "_calculate_threat_level",
   "_update_consciousness", "get_status"]

/-- The numeric fields of the dict returned by `process_event` (lines 72-79);
the `"status"` value is always the string `"processed"` and `"timestamp"` is
the wall clock, neither is modelled numerically here. -/
structure ProcResult where
  cycle : ℕ
  consciousness : ℚ
  threat_level : ℚ
  latency_ms : ℚ
deriving Repr, DecidableEq

/-- `GAIA.process_event` (lines 38-79), returning the updated state and the
response. Environment parameters: `noise` is the random draw inside
`_calculate_threat_level`, `dt` the elapsed time feeding the recovery term,
`latency_ms` the measured wall-clock duration appended to the latency
history. -/
def process_event (st : GAIA) (event : Event) (noise dt latency_ms : ℚ) :
    GAIA × ProcResult :=
  let cpu := event.cpu.getD (1/2)
  let memory := event.memory.getD (1/2)
  let network := event.network.getD 0
  let threat_level := calculate_threat_level cpu memory network noise
  let threats := appendBounded st.config.max_threats_history st.threats threat_level
  let consciousness := update_consciousness st.config st.consciousness threat_level dt
  let latencies := appendBounded st.config.max_latencies_history st.latencies latency_ms
  let cycle_count := st.cycle_count + 1
  ({ config := st.config
     cycle_count := cycle_count
     consciousness := consciousness
     threats := threats
     latencies := latencies },
   { cycle := cycle_count
     consciousness := consciousness
     threat_level := threat_level
     latency_ms := latency_ms })

/-- The fields of the dict returned by `GAIA.get_status` (lines 112-123). -/
structure GStatus where
  consciousness : ℚ
  cycle_count : ℕ
  threats_count : ℕ
  latencies_count : ℕ
  last_threat : ℚ
  last_latency : ℚ
  avg_threat : ℚ
  avg_latency : ℚ
deriving Repr, DecidableEq

/-- `GAIA.get_status` (lines 112-123): the `if self.threats else 0.0`
guards become emptiness tests; division and last-element indexing happen
only in the non-empty branch, exactly as in the source. -/
def get_status (st : GAIA) : GStatus :=
  { consciousness := st.consciousness
    cycle_count := st.cycle_count
    threats_count := st.threats.length
    latencies_count := st.latencies.length
    last_threat := if st.threats.isEmpty then 0 else st.threats.getLastD 0
    last_latency := if st.latencies.isEmpty then 0 else st.latencies.getLastD 0
    avg_threat :=
      if st.threats.isEmpty then 0 else st.threats.sum / st.threats.length
    avg_latency :=
      if st.latencies.isEmpty then 0 else st.latencies.sum / st.latencies.length }

/-- The value printed on the `gaia_threat_mean` line of the `/metrics`
endpoint in `src/gaia_api.py` (line 37): the last threat sample when the
history is non-empty, otherwise the literal `0`. -/
def metrics_threat_mean (st : GAIA) : ℚ :=
  if st.threats.length ≠ 0 then st.threats.getLastD 0 else 0

/-- The value printed on the `gaia_latency_ms_last` line of the `/metrics`
endpoint in `src/gaia_api.py` (line 41). -/
def metrics_latency_ms_last (st : GAIA) : ℚ :=
  if st.latencies.length ≠ 0 then st.latencies.getLastD 0 else 0

/-- One trace step: an event together with the environment values
(noise draw, elapsed time, measured latency) of that call. -/
structure TraceStep where
  event : Event
  noise : ℚ
  dt : ℚ
  latency : ℚ
deriving Repr, DecidableEq

/-- Run a sequence of `process_event` calls, keeping the final state. -/
def run_events (st : GAIA) (steps : List TraceStep) : GAIA :=
  steps.foldl (fun s p => (process_event s p.event p.noise p.dt p.latency).1) st

/-- The threat value a step contributes; `_calculate_threat_level` reads
only the event fields and the noise draw, no state. -/
def stepThreat (p : TraceStep) : ℚ :=
  calculate_threat_level (p.event.cpu.getD (1/2)) (p.event.memory.getD (1/2))
    (p.event.network.getD 0) p.noise

/-- The latency value a step appends to the latency history. -/
def stepLatency (p : TraceStep) : ℚ := p.latency

/-- Average of a list of rationals, 0 when empty (helper for the spec-side
consciousness formula). -/
def listAvg (xs : List ℚ) : ℚ := if xs.isEmpty then 0 else xs.sum / xs.length

/-- Population variance of a list of rationals, 0 when empty (helper for
the spec-side consciousness formula). -/
def listVar (xs : List ℚ) : ℚ :=
  if xs.isEmpty then 0
  else ((xs.map fun x => (x - listAvg xs) ^ 2).sum) / xs.length

/-- Modelled from the spec, for comparison only (spec.md section 4.1 step 3):
consciousness update by exponential smoothing over average-plus-variance of
the threat history. This formula appears nowhere in the source. -/
def update_consciousness_spec (smoothing old : ℚ) (history : List ℚ) : ℚ :=
  let raw := listAvg history + listVar history
  let raw2 := max 0 (min 1 (raw * (3/2)))
  max 0 (min 1 (smoothing * old + (1 - smoothing) * raw2))

/-- Modelled from the spec, for comparison only (spec.md section 3):
clamp every present metric field of an event to the interval [0,1]. -/
def Event.clamp01 (ev : Event) : Event :=
  { cpu := ev.cpu.map fun x => max 0 (min 1 x)
    memory := ev.memory.map fun x => max 0 (min 1 x)
    network := ev.network.map fun x => max 0 (min 1 x) }

lemma calculate_threat_level_nonneg (cpu memory network noise : ℚ) :
    0 ≤ calculate_threat_level cpu memory network noise := by
  simp only [calculate_threat_level]
  split_ifs with h
  · exact le_min (by norm_num) (by positivity)
  · exact le_max_left 0 _

lemma calculate_threat_level_le_one (cpu memory network noise : ℚ) :
    calculate_threat_level cpu memory network noise ≤ 1 := by
  simp only [calculate_threat_level]
  split_ifs with h
  · exact min_le_left 1 _
  · exact max_le (by norm_num) (min_le_left 1 _)

lemma calculate_threat_level_no_spike (cpu memory network noise : ℚ)
    (h1 : cpu ≤ 9/10) (h2 : memory ≤ 9/10)
    (h3 : 0 ≤ (cpu + memory + network) / 3 + noise)
    (h4 : (cpu + memory + network) / 3 + noise ≤ 1) :
    calculate_threat_level cpu memory network noise
      = (cpu + memory + network) / 3 + noise := by
  simp only [calculate_threat_level]
  rw [if_neg (by push_neg; constructor <;> linarith)]
  rw [min_eq_right h4, max_eq_right h3]

lemma appendBounded_eq (cap : ℕ) (hcap : 1 ≤ cap) (xs : List ℚ) (x : ℚ) :
    appendBounded cap xs x = (xs ++ [x]).drop (xs.length + 1 - cap) := by
  simp only [appendBounded, pySliceLast]
  by_cases h : cap < (xs ++ [x]).length
  · rw [if_pos h, if_neg (by omega)]
    simp [List.length_append]
  · rw [if_neg h]
    have hlen : (xs ++ [x]).length = xs.length + 1 := by simp
    rw [hlen] at h
    have hz : xs.length + 1 - cap = 0 := by omega
    rw [hz, List.drop_zero]

lemma foldl_appendBounded (cap : ℕ) (hcap : 1 ≤ cap) (f : TraceStep → ℚ) :
    ∀ (steps : List TraceStep) (xs : List ℚ), xs.length ≤ cap →
      steps.foldl (fun acc p => appendBounded cap acc (f p)) xs
        = (xs ++ steps.map f).drop (xs.length + steps.length - cap) := by
  intro steps
  induction steps with
  | nil =>
      intro xs hxs
      simp only [List.foldl_nil, List.map_nil, List.append_nil, List.length_nil]
      have hz : xs.length + 0 - cap = 0 := by omega
      rw [hz, List.drop_zero]
  | cons p rest ih =>
      intro xs hxs
      simp only [List.foldl_cons, List.map_cons, List.length_cons]
      rw [appendBounded_eq cap hcap]
      have hlen : ((xs ++ [f p]).drop (xs.length + 1 - cap)).length
          = xs.length + 1 - (xs.length + 1 - cap) := by
        simp [List.length_drop]
      have hle : ((xs ++ [f p]).drop (xs.length + 1 - cap)).length ≤ cap := by
        rw [hlen]; omega
      rw [ih _ hle, hlen]
      have hd : xs.length + 1 - cap ≤ (xs ++ [f p]).length := by
        simp only [List.length_append, List.length_singleton]
        omega
      have hsplit : (xs ++ [f p]).drop (xs.length + 1 - cap) ++ List.map f rest
          = ((xs ++ [f p]) ++ List.map f rest).drop (xs.length + 1 - cap) :=
        (List.drop_append_of_le_length hd).symm
      rw [hsplit, List.drop_drop]
      have hassoc : (xs ++ [f p]) ++ List.map f rest = xs ++ f p :: List.map f rest := by
        simp
      rw [hassoc]
      congr 1
      omega

lemma run_events_threats :
    ∀ (steps : List TraceStep) (st : GAIA),
      (run_events st steps).threats
        = steps.foldl
            (fun acc p => appendBounded st.config.max_threats_history acc (stepThreat p))
            st.threats := by
  intro steps
  induction steps with
  | nil => intro st; rfl
  | cons p rest ih =>
      intro st
      have h1 : run_events st (p :: rest)
          = run_events (process_event st p.event p.noise p.dt p.latency).1 rest := rfl
      rw [h1, ih]
      rfl

lemma run_events_latencies :
    ∀ (steps : List TraceStep) (st : GAIA),
      (run_events st steps).latencies
        = steps.foldl
            (fun acc p => appendBounded st.config.max_latencies_history acc (stepLatency p))
            st.latencies := by
  intro steps
  induction steps with
  | nil => intro st; rfl
  | cons p rest ih =>
      intro st
      have h1 : run_events st (p :: rest)
          = run_events (process_event st p.event p.noise p.dt p.latency).1 rest := rfl
      rw [h1, ih]
      rfl

end GaiaV67

namespace GaiaV67

lemma process_event_threat_level (st : GAIA) (ev : Event) (noise dt latency_ms : ℚ) :
    (process_event st ev noise dt latency_ms).2.threat_level
      = calculate_threat_level (ev.cpu.getD (1/2)) (ev.memory.getD (1/2))
          (ev.network.getD 0) noise := rfl

lemma process_event_consciousness (st : GAIA) (ev : Event) (noise dt latency_ms : ℚ) :
    (process_event st ev noise dt latency_ms).1.consciousness
      = update_consciousness st.config st.consciousness
          (calculate_threat_level (ev.cpu.getD (1/2)) (ev.memory.getD (1/2))
            (ev.network.getD 0) noise) dt := rfl

lemma process_event_threats (st : GAIA) (ev : Event) (noise dt latency_ms : ℚ) :
    (process_event st ev noise dt latency_ms).1.threats
      = appendBounded st.config.max_threats_history st.threats
          (calculate_threat_level (ev.cpu.getD (1/2)) (ev.memory.getD (1/2))
            (ev.network.getD 0) noise) := rfl

lemma calc_threat_111 : calculate_threat_level 1 1 1 0 = 1 := by
  norm_num [calculate_threat_level, min_def, max_def]

/-- C1: the code does not implement the spec's baseline-deviation threat
formula. Feeding the Scenario A sample `{cpu: 0.5, memory: 0.5, network: 0.1}`
(the spec's configured baseline) yields
`threat_level = (0.5 + 0.5 + 0.1)/3 + noise = 11/30 + noise`, strictly
positive for every possible draw `noise ∈ [-0.1, 0.1]` of
`random.uniform(-0.1, 0.1)`, never the claimed `0.0`. -/
theorem C1_threat_nonzero_at_baseline (noise dt latency_ms : ℚ)
    (h1 : -(1/10) ≤ noise) (h2 : noise ≤ 1/10) :
    (process_event (GAIA.init Config.default)
        ⟨some (1/2), some (1/2), some (1/10)⟩ noise dt latency_ms).2.threat_level
      = 11/30 + noise
    ∧ 0 < (process_event (GAIA.init Config.default)
        ⟨some (1/2), some (1/2), some (1/10)⟩ noise dt latency_ms).2.threat_level := by
  have key : (process_event (GAIA.init Config.default)
      ⟨some (1/2), some (1/2), some (1/10)⟩ noise dt latency_ms).2.threat_level
      = calculate_threat_level (1/2) (1/2) (1/10) noise := rfl
  have hval : calculate_threat_level (1/2) (1/2) (1/10) noise = 11/30 + noise := by
    rw [calculate_threat_level_no_spike (1/2) (1/2) (1/10) noise
      (by norm_num) (by norm_num) (by linarith) (by linarith)]
    norm_num
  refine ⟨by rw [key, hval], ?_⟩
  rw [key, hval]
  linarith

/-- Witness for C1 at the concrete noise draw 0. -/
theorem C1_threat_nonzero_at_baseline_witness :
    -(1/10) ≤ (0:ℚ) ∧ (0:ℚ) ≤ 1/10 ∧
    ((process_event (GAIA.init Config.default)
        ⟨some (1/2), some (1/2), some (1/10)⟩ 0 0 0).2.threat_level = 11/30 + 0
      ∧ 0 < (process_event (GAIA.init Config.default)
        ⟨some (1/2), some (1/2), some (1/10)⟩ 0 0 0).2.threat_level) :=
  ⟨by norm_num, by norm_num,
    C1_threat_nonzero_at_baseline 0 0 0 (by norm_num) (by norm_num)⟩

/-- C2 counterexample: processing `{cpu:1, memory:1, network:1}` on a fresh
engine (noise draw 0, zero elapsed time) leaves the threat history `[1]` and
consciousness `2/5`, while the spec formula
`smoothing*old + (1-smoothing)*clamp01((avg+var)*1.5)` with the spec's
smoothing 0.8 and the same history gives `3/5`. -/
theorem C2_consciousness_spec_counterexample :
    (process_event (GAIA.init Config.default) ⟨some 1, some 1, some 1⟩ 0 0 0).1.threats = [1]
    ∧ (process_event (GAIA.init Config.default) ⟨some 1, some 1, some 1⟩ 0 0 0).1.consciousness
        = 2/5
    ∧ update_consciousness_spec (4/5) (1/2) [1] = 3/5
    ∧ ((2:ℚ)/5) ≠ 3/5 := by
  refine ⟨?_, ?_, ?_, by norm_num⟩
  · show appendBounded 1000 [] (calculate_threat_level 1 1 1 0) = [1]
    rw [calc_threat_111]
    simp [appendBounded]
  · show max 0 (min 1 (1/2 + -(1/10) * calculate_threat_level 1 1 1 0
        + min (1/20) ((0:ℚ) * (1/100)))) = 2/5
    rw [calc_threat_111]
    norm_num [min_def, max_def]
  · norm_num [update_consciousness_spec, listAvg, listVar, min_def, max_def]

/-- C2 amended: the consciousness written by `process_event` is
`clamp(min_c, max_c, old - 0.1*threat_level + min(0.05, 0.01*dt))`, an
additive decay-plus-recovery update, not the spec's exponential smoothing
over the history; `_update_consciousness` (called once per `process_event`)
and construction are the only writes to `consciousness`. -/
theorem C2_consciousness_update_additive (st : GAIA) (ev : Event) (noise dt latency_ms : ℚ) :
    (process_event st ev noise dt latency_ms).1.consciousness
      = max st.config.min_consciousness (min st.config.max_consciousness
          (st.consciousness - (1/10) * stepThreat ⟨ev, noise, dt, latency_ms⟩
            + min (1/20) (dt * (1/100)))) := by
  show max st.config.min_consciousness (min st.config.max_consciousness
      (st.consciousness + -(1/10) * stepThreat ⟨ev, noise, dt, latency_ms⟩
        + min (1/20) (dt * (1/100)))) = _
  congr 2
  ring

/-- C3: `_calculate_threat_level` adds `random.uniform(-0.1, 0.1)` to the
score, so two engines with identical config and identical sample sequences
diverge when the draws differ: the draws -0.1 and 0.1 (both within the
uniform range) on the same single sample give different threat levels and
different consciousness values. -/
theorem C3_noise_breaks_determinism :
    (process_event (GAIA.init Config.default)
        ⟨some (1/2), some (1/2), some (1/10)⟩ (-(1/10)) 0 0).2.threat_level
      ≠ (process_event (GAIA.init Config.default)
        ⟨some (1/2), some (1/2), some (1/10)⟩ (1/10) 0 0).2.threat_level
    ∧ (process_event (GAIA.init Config.default)
        ⟨some (1/2), some (1/2), some (1/10)⟩ (-(1/10)) 0 0).1.consciousness
      ≠ (process_event (GAIA.init Config.default)
        ⟨some (1/2), some (1/2), some (1/10)⟩ (1/10) 0 0).1.consciousness := by
  have hD : calculate_threat_level (1/2) (1/2) (1/10) (-(1/10)) = 4/15 := by
    rw [calculate_threat_level_no_spike (1/2) (1/2) (1/10) (-(1/10))
      (by norm_num) (by norm_num) (by norm_num) (by norm_num)]
    norm_num
  have hE : calculate_threat_level (1/2) (1/2) (1/10) (1/10) = 7/15 := by
    rw [calculate_threat_level_no_spike (1/2) (1/2) (1/10) (1/10)
      (by norm_num) (by norm_num) (by norm_num) (by norm_num)]
    norm_num
  constructor
  · show calculate_threat_level (1/2) (1/2) (1/10) (-(1/10))
        ≠ calculate_threat_level (1/2) (1/2) (1/10) (1/10)
    rw [hD, hE]
    norm_num
  · show max 0 (min 1 (1/2 + -(1/10) * calculate_threat_level (1/2) (1/2) (1/10) (-(1/10))
          + min (1/20) ((0:ℚ) * (1/100))))
      ≠ max 0 (min 1 (1/2 + -(1/10) * calculate_threat_level (1/2) (1/2) (1/10) (1/10)
          + min (1/20) ((0:ℚ) * (1/100))))
    rw [hD, hE]
    norm_num [min_def, max_def]

/-- C4 counterexample: the dict returned by `process_event` carries no
`emergence` key, so no emergence value exists to be bounded. -/
theorem C4_result_has_no_emergence : "emergence" ∉ process_event_result_keys := by
  decide

/-- C4 amended: after every `process_event` call (any prior state, any
event, any noise draw, any elapsed time), `0 ≤ consciousness ≤ 1` and
`0 ≤ threat_level ≤ 1`, given the consciousness bounds the constructor
always installs (`min_consciousness = 0`, `max_consciousness = 1`); the
result has no emergence field at all. -/
theorem C4_bounds_consciousness_threat (st : GAIA) (ev : Event) (noise dt latency_ms : ℚ)
    (hmin : st.config.min_consciousness = 0) (hmax : st.config.max_consciousness = 1) :
    (0 ≤ (process_event st ev noise dt latency_ms).1.consciousness
      ∧ (process_event st ev noise dt latency_ms).1.consciousness ≤ 1)
    ∧ (0 ≤ (process_event st ev noise dt latency_ms).2.threat_level
      ∧ (process_event st ev noise dt latency_ms).2.threat_level ≤ 1) := by
  refine ⟨⟨?_, ?_⟩, ?_, ?_⟩
  · rw [process_event_consciousness]
    simp only [update_consciousness, hmin]
    exact le_max_left 0 _
  · rw [process_event_consciousness]
    simp only [update_consciousness, hmin, hmax]
    exact max_le (by norm_num) (min_le_left 1 _)
  · rw [process_event_threat_level]
    exact calculate_threat_level_nonneg _ _ _ _
  · rw [process_event_threat_level]
    exact calculate_threat_level_le_one _ _ _ _

/-- Witness for C4 on a default-configured fresh engine and an empty event. -/
theorem C4_bounds_consciousness_threat_witness :
    (GAIA.init Config.default).config.min_consciousness = 0
    ∧ (GAIA.init Config.default).config.max_consciousness = 1
    ∧ ((0 ≤ (process_event (GAIA.init Config.default) ⟨none, none, none⟩ 0 0 0).1.consciousness
        ∧ (process_event (GAIA.init Config.default) ⟨none, none, none⟩ 0 0 0).1.consciousness ≤ 1)
      ∧ (0 ≤ (process_event (GAIA.init Config.default) ⟨none, none, none⟩ 0 0 0).2.threat_level
        ∧ (process_event (GAIA.init Config.default) ⟨none, none, none⟩ 0 0 0).2.threat_level ≤ 1)) :=
  ⟨rfl, rfl,
    C4_bounds_consciousness_threat (GAIA.init Config.default) ⟨none, none, none⟩ 0 0 0 rfl rfl⟩

/-- C5: as long as the two capacities are positive (the spec requires
`> 0`; the code's constructor sets 1000), the threat history after any
trace equals the most recent `max_threats_history`-many of the per-step
threat values in arrival order, and likewise for the latency history; in
particular both lengths stay bounded by their capacities, and a trace
longer than the capacity leaves exactly capacity-many newest entries. -/
theorem C5_bounded_fifo_histories (cfg : Config) (steps : List TraceStep)
    (ht : 1 ≤ cfg.max_threats_history) (hl : 1 ≤ cfg.max_latencies_history) :
    (run_events (GAIA.init cfg) steps).threats
        = (steps.map stepThreat).drop (steps.length - cfg.max_threats_history)
      ∧ (run_events (GAIA.init cfg) steps).latencies
        = (steps.map stepLatency).drop (steps.length - cfg.max_latencies_history) := by
  constructor
  · rw [run_events_threats]
    have h := foldl_appendBounded cfg.max_threats_history ht stepThreat steps []
      (by simp)
    simpa using h
  · rw [run_events_latencies]
    have h := foldl_appendBounded cfg.max_latencies_history hl stepLatency steps []
      (by simp)
    simpa using h

/-- Witness for C5 on a two-step trace under the default configuration. -/
theorem C5_bounded_fifo_histories_witness :
    1 ≤ Config.default.max_threats_history
    ∧ 1 ≤ Config.default.max_latencies_history
    ∧ ((run_events (GAIA.init Config.default)
          [⟨⟨some 1, some 0, some 0⟩, 0, 0, 5⟩, ⟨⟨some 0, some 0, some 0⟩, 0, 0, 7⟩]).threats
        = (([⟨⟨some 1, some 0, some 0⟩, 0, 0, 5⟩,
            ⟨⟨some 0, some 0, some 0⟩, 0, 0, 7⟩] : List TraceStep).map stepThreat).drop
            (([⟨⟨some 1, some 0, some 0⟩, 0, 0, 5⟩,
              ⟨⟨some 0, some 0, some 0⟩, 0, 0, 7⟩] : List TraceStep).length
              - Config.default.max_threats_history)
      ∧ (run_events (GAIA.init Config.default)
          [⟨⟨some 1, some 0, some 0⟩, 0, 0, 5⟩, ⟨⟨some 0, some 0, some 0⟩, 0, 0, 7⟩]).latencies
        = (([⟨⟨some 1, some 0, some 0⟩, 0, 0, 5⟩,
            ⟨⟨some 0, some 0, some 0⟩, 0, 0, 7⟩] : List TraceStep).map stepLatency).drop
            (([⟨⟨some 1, some 0, some 0⟩, 0, 0, 5⟩,
              ⟨⟨some 0, some 0, some 0⟩, 0, 0, 7⟩] : List TraceStep).length
              - Config.default.max_latencies_history)) :=
  ⟨by decide, by decide,
    C5_bounded_fifo_histories Config.default
      [⟨⟨some 1, some 0, some 0⟩, 0, 0, 5⟩, ⟨⟨some 0, some 0, some 0⟩, 0, 0, 7⟩]
      (by decide) (by decide)⟩

/-- C6 counterexample: the dict literal returned by `process_event`
(source lines 72-79) has keys status, cycle, consciousness, threat_level,
latency_ms, timestamp; `emergence` is not among them. -/
theorem C6_result_lacks_emergence_field : "emergence" ∉ process_event_result_keys := by
  decide

/-- C6 amended: every `process_event` result carries exactly the keys
status, cycle, consciousness, threat_level, latency_ms and timestamp, and
no emergence field; no emergence value is computed anywhere. -/
theorem C6_result_keys_exact :
    process_event_result_keys
        = ["status", "cycle", "consciousness", "threat_level", "latency_ms", "timestamp"]
      ∧ "emergence" ∉ process_event_result_keys := ⟨rfl, by decide⟩

/-- C7 counterexample: metric fields are used unclamped. The out-of-range
event `{cpu: 2, memory: 0.3, network: 0}` (noise draw 0) produces
`threat_level = 1`, while the same event with cpu clamped to 1 produces
`threat_level = 13/20`; clamping on ingestion would have made them equal. -/
theorem C7_unclamped_input_counterexample :
    Event.clamp01 ⟨some 2, some (3/10), some 0⟩ = ⟨some 1, some (3/10), some 0⟩
    ∧ (process_event (GAIA.init Config.default)
        ⟨some 2, some (3/10), some 0⟩ 0 0 0).2.threat_level = 1
    ∧ (process_event (GAIA.init Config.default)
        ⟨some 1, some (3/10), some 0⟩ 0 0 0).2.threat_level = 13/20
    ∧ (1:ℚ) ≠ 13/20 := by
  refine ⟨?_, ?_, ?_, by norm_num⟩
  · simp [Event.clamp01, min_def, max_def]
    norm_num
  · show calculate_threat_level 2 (3/10) 0 0 = 1
    norm_num [calculate_threat_level, min_def, max_def]
  · show calculate_threat_level 1 (3/10) 0 0 = 13/20
    norm_num [calculate_threat_level, min_def, max_def]

/-- C7 amended: `process_event` never rejects an event and applies no
clamping: each field is read with `dict.get`, a missing cpu or memory
defaults to the hardcoded 0.5 and a missing network to the hardcoded 0.0
(there is no configured baseline), and processing any event is identical
to processing the event with those defaults filled in. -/
theorem C7_missing_fields_default (st : GAIA) (ev : Event) (noise dt latency_ms : ℚ) :
    process_event st ev noise dt latency_ms
      = process_event st
          ⟨some (ev.cpu.getD (1/2)), some (ev.memory.getD (1/2)), some (ev.network.getD 0)⟩
          noise dt latency_ms := rfl

/-- C8 counterexample: feeding `{cpu:1, memory:1, network:1}` once to a
fresh engine (noise draw 0, zero elapsed time) gives `threat_level = 1 > 0`
but consciousness `2/5`, which is strictly farther from 1 than the initial
consciousness `1/2` — it moves toward 0, not toward 1. -/
theorem C8_consciousness_moves_away :
    (GAIA.init Config.default).consciousness = 1/2
    ∧ (process_event (GAIA.init Config.default) ⟨some 1, some 1, some 1⟩ 0 0 0).2.threat_level = 1
    ∧ (process_event (GAIA.init Config.default) ⟨some 1, some 1, some 1⟩ 0 0 0).1.consciousness
        = 2/5
    ∧ ¬ |1 - (2:ℚ)/5| < |1 - (1:ℚ)/2| := by
  refine ⟨rfl, ?_, ?_, ?_⟩
  · show calculate_threat_level 1 1 1 0 = 1
    exact calc_threat_111
  · show max 0 (min 1 (1/2 + -(1/10) * calculate_threat_level 1 1 1 0
        + min (1/20) ((0:ℚ) * (1/100)))) = 2/5
    rw [calc_threat_111]
    norm_num [min_def, max_def]
  · have ha : |1 - (2:ℚ)/5| = 3/5 := by
      rw [show (1:ℚ) - 2/5 = 3/5 by norm_num]
      exact abs_of_pos (by norm_num)
    have hb : |1 - (1:ℚ)/2| = 1/2 := by
      rw [show (1:ℚ) - 1/2 = 1/2 by norm_num]
      exact abs_of_pos (by norm_num)
    rw [ha, hb]
    norm_num

/-- C8 amended: on the fresh engine the sample `{cpu:1, memory:1,
network:1}` always yields `threat_level > 0` (indeed exactly 1, for every
noise draw in [-0.1, 0.1]), and consciousness strictly decreases below its
initial value 0.5 — it moves toward 0, away from 1 — for every nonnegative
elapsed time. -/
theorem C8_scenario_b_on_code (noise dt latency_ms : ℚ)
    (h1 : -(1/10) ≤ noise) (_h2 : noise ≤ 1/10) (h3 : 0 ≤ dt) :
    0 < (process_event (GAIA.init Config.default)
          ⟨some 1, some 1, some 1⟩ noise dt latency_ms).2.threat_level
    ∧ (process_event (GAIA.init Config.default)
          ⟨some 1, some 1, some 1⟩ noise dt latency_ms).1.consciousness
        < (GAIA.init Config.default).consciousness := by
  have hthreat : calculate_threat_level 1 1 1 noise = 1 := by
    simp only [calculate_threat_level]
    rw [if_pos (by norm_num)]
    have hb : (1 + 1 + (1:ℚ)) / 3 + noise = 1 + noise := by ring
    rw [hb]
    have h4 : 9/10 ≤ min 1 (1 + noise) := le_min (by norm_num) (by linarith)
    have h5 : max 0 (min 1 (1 + noise)) = min 1 (1 + noise) := max_eq_right (by linarith)
    rw [h5, min_eq_left (by linarith)]
  have ht : (process_event (GAIA.init Config.default)
      ⟨some 1, some 1, some 1⟩ noise dt latency_ms).2.threat_level
      = calculate_threat_level 1 1 1 noise := rfl
  have hc : (process_event (GAIA.init Config.default)
      ⟨some 1, some 1, some 1⟩ noise dt latency_ms).1.consciousness
      = max 0 (min 1 (1/2 + -(1/10) * calculate_threat_level 1 1 1 noise
          + min (1/20) (dt * (1/100)))) := rfl
  constructor
  · rw [ht, hthreat]
    norm_num
  · rw [hc, hthreat]
    have hr0 : 0 ≤ min (1/20) (dt * (1/100)) :=
      le_min (by norm_num) (by positivity)
    have hr1 : min (1/20) (dt * (1/100)) ≤ 1/20 := min_le_left _ _
    have hinner : (1:ℚ)/2 + -(1/10) * 1 + min (1/20) (dt * (1/100))
        = 2/5 + min (1/20) (dt * (1/100)) := by ring
    rw [hinner, min_eq_right (by linarith), max_eq_right (by linarith)]
    show 2/5 + min (1/20) (dt * (1/100)) < 1/2
    linarith

/-- Witness for C8 at noise draw 0 and zero elapsed time. -/
theorem C8_scenario_b_on_code_witness :
    -(1/10) ≤ (0:ℚ) ∧ (0:ℚ) ≤ 1/10 ∧ (0:ℚ) ≤ 0 ∧
    (0 < (process_event (GAIA.init Config.default)
          ⟨some 1, some 1, some 1⟩ 0 0 0).2.threat_level
      ∧ (process_event (GAIA.init Config.default)
          ⟨some 1, some 1, some 1⟩ 0 0 0).1.consciousness
        < (GAIA.init Config.default).consciousness) :=
  ⟨by norm_num, by norm_num, le_refl 0,
    C8_scenario_b_on_code 0 0 0 (by norm_num) (by norm_num) (le_refl 0)⟩

/-- C9 counterexample: class GAIA defines only __init__, process_event,
_calculate_threat_level, _update_consciousness and get_status; there is no
reset method under either Python or CamelCase naming. -/
theorem C9_no_reset_method :
    "reset" ∉ GAIA.method_names ∧ "Reset" ∉ GAIA.method_names := by
  refine ⟨?_, ?_⟩ <;> decide

/-- C9 amended: the engine exposes no Reset operation at all; the state
created at construction is cycle_count 0, consciousness 0.5 and both
histories empty, and nothing restores it afterwards. -/
theorem C9_construction_state_no_reset (cfg : Config) :
    (GAIA.init cfg).cycle_count = 0
    ∧ (GAIA.init cfg).consciousness = 1/2
    ∧ (GAIA.init cfg).threats = []
    ∧ (GAIA.init cfg).latencies = []
    ∧ "reset" ∉ GAIA.method_names :=
  ⟨rfl, rfl, rfl, rfl, by decide⟩

/-- C10: on a freshly constructed engine (zero events processed, both
histories empty) `get_status` returns 0.0 for last_threat, last_latency,
avg_threat and avg_latency through the emptiness guards, and the two
guarded `/metrics` gauges of `gaia_api.py` likewise print 0; the division
and last-element branches are taken only when the histories are
non-empty. -/
theorem C10_status_safe_on_empty (cfg : Config) :
    get_status (GAIA.init cfg)
        = { consciousness := 1/2, cycle_count := 0, threats_count := 0, latencies_count := 0,
            last_threat := 0, last_latency := 0, avg_threat := 0, avg_latency := 0 }
    ∧ metrics_threat_mean (GAIA.init cfg) = 0
    ∧ metrics_latency_ms_last (GAIA.init cfg) = 0 :=
  ⟨rfl, rfl, rfl⟩

end GaiaV67
